import Mathlib

/-!
Verification of the arweave bulk-uploader core (arload / arweave_rs).

Shallow embedding notes:
* Byte strings are `List Nat`; the SHA-256 / SHA-384 primitives and the
  RSA-PSS signing primitive are external cryptographic code (the `ring`
  crate), so they are passed as explicit function parameters.
* Integer-to-decimal-ASCII encoding (`to_string().as_bytes()` in the
  source) is `ascii (Nat.repr n)`.
* The on-disk status store of a log directory is modelled as a map from
  file path to the decoded status record (the blake3-derived file name is
  a bijective renaming of the path and is abstracted away).
* Network responses and the current clock reading are explicit inputs.
-/

namespace Arloader

/-- Decimal/ASCII byte encoding of a string (`as_bytes` on an ASCII string). -/
def ascii (s : String) : List Nat :=
  s.data.map Char.toNat

/-! ## Transaction data model

`Tag` and `Transaction` live in the repository's `transaction.rs`, which is
not among the provided sources; the field list below follows the spec's §3
data model table and the field accesses in `crypto.rs` / `lib.rs`.
`Base64` values are kept as their raw byte vectors. -/

/-- Modelled from the spec: the `Tag` record of the missing
`transaction.rs` — a pair of byte strings (the decoded `Base64` name and
value). -/
structure Tag where
  name : List Nat
  value : List Nat
deriving DecidableEq, Repr

/-- Modelled from the spec: the `Transaction` record of the missing
`transaction.rs`, following the spec's §3 field table and the field
accesses in `crypto.rs` / `lib.rs`; `chunks`/`proofs` are local-only
Merkle artefacts not used by any claim and are omitted. -/
structure Transaction where
  format : Nat
  id : List Nat
  last_tx : List Nat
  owner : List Nat
  tags : List Tag
  target : List Nat
  quantity : Nat
  data : List Nat
  data_root : List Nat
  data_size : Nat
  reward : Nat
  signature : List Nat
deriving DecidableEq, Repr

/-! ## Deep hash (`crypto.rs`)

The `sha` parameter is the SHA-384 primitive (`hash_SHA384`). -/

/-- `hash_all_SHA384`: hash each message, concatenate the digests, hash that. -/
def hash_all_SHA384 (sha : List Nat → List Nat) (messages : List (List Nat)) : List Nat :=
  sha (messages.map sha).flatten

/-- `deep_hash_list` from `crypto.rs`: start from the given hash, or from
`SHA-384("list" ++ data_len)` when none is given, then fold each blob in. -/
def deep_hash_list (sha : List Nat → List Nat) (data_len : Nat)
    (data : List (List Nat)) (hash : Option (List Nat)) : List Nat :=
  data.foldl
    (fun h blob =>
      sha (h ++ hash_all_SHA384 sha [ascii ("blob" ++ Nat.repr blob.length), blob]))
    (hash.getD (sha (ascii ("list" ++ Nat.repr data_len))))

/-- Modelled from the spec: `tags.to_slices()` from the missing
`transaction.rs` — each tag contributes the two-element slice of its
name bytes and value bytes ("`tag_list` is the list whose children are
each `[tag.name, tag.value]` sub-lists"). -/
def to_slices (tags : List Tag) : List (List (List Nat)) :=
  tags.map (fun t => [t.name, t.value])

/-- `deep_hash_tags` from `crypto.rs`: fold the per-tag slice hashes onto
`SHA-384("list" ++ number of tags)`. -/
def deep_hash_tags (sha : List Nat → List Nat) (tags : List Tag) : List Nat :=
  (to_slices tags).foldl
    (fun h slice => sha (h ++ deep_hash_list sha slice.length slice none))
    (sha (ascii ("list" ++ Nat.repr tags.length)))

/-- `deep_hash` from `crypto.rs`: staged in three pieces — the first six
fields, then the tags, then the final two fields continuing from the
accumulated hash. -/
def deep_hash (sha : List Nat → List Nat) (tx : Transaction) : List Nat :=
  let pre_tag_hash := deep_hash_list sha 9
    [ascii (Nat.repr tx.format), tx.owner, tx.target,
     ascii (Nat.repr tx.quantity), ascii (Nat.repr tx.reward), tx.last_tx] none
  let tag_hash := deep_hash_tags sha tx.tags
  let post_tag_hash := sha (pre_tag_hash ++ tag_hash)
  deep_hash_list sha 0 [ascii (Nat.repr tx.data_size), tx.data_root] (some post_tag_hash)

/-! ## Reference deep hash (spec §4.4, written from the spec's words) -/

/-- Spec: blob `b` hashes to `SHA-384(SHA-384("blob" ++ len) ++ SHA-384(b))`. -/
def refBlobHash (sha : List Nat → List Nat) (b : List Nat) : List Nat :=
  sha (sha (ascii ("blob" ++ Nat.repr b.length)) ++ sha b)

/-- Spec: a list node folds its children's deep hashes onto
`SHA-384("list" ++ n)` where `n` is the number of children. -/
def refListHash (sha : List Nat → List Nat) (childHashes : List (List Nat)) : List Nat :=
  childHashes.foldl (fun acc h => sha (acc ++ h))
    (sha (ascii ("list" ++ Nat.repr childHashes.length)))

/-- Spec: each tag is the two-element list `[tag.name, tag.value]`. -/
def refTagHash (sha : List Nat → List Nat) (t : Tag) : List Nat :=
  refListHash sha [refBlobHash sha t.name, refBlobHash sha t.value]

/-- Spec: the transaction deep hash is the nine-element list
`[format, owner, target, quantity, reward, last_tx, tag_list, data_size, data_root]`. -/
def refDeepHash (sha : List Nat → List Nat) (tx : Transaction) : List Nat :=
  refListHash sha
    [refBlobHash sha (ascii (Nat.repr tx.format)),
     refBlobHash sha tx.owner,
     refBlobHash sha tx.target,
     refBlobHash sha (ascii (Nat.repr tx.quantity)),
     refBlobHash sha (ascii (Nat.repr tx.reward)),
     refBlobHash sha tx.last_tx,
     refListHash sha (tx.tags.map (refTagHash sha)),
     refBlobHash sha (ascii (Nat.repr tx.data_size)),
     refBlobHash sha tx.data_root]

/-! ## Status model (`status.rs`) -/

/-- The gateway's raw status of a confirmed transaction. -/
structure RawStatus where
  block_height : Nat
  block_indep_hash : List Nat
  number_of_confirmations : Nat
deriving DecidableEq, Repr

/-- The local lifecycle state of an uploaded transaction. -/
inductive StatusCode where
  | Submitted
  | Pending
  | Confirmed
  | NotFound
deriving DecidableEq, Repr

/-- A per-file status record. `created_at` / `last_modified` are clock
readings, modelled as naturals. -/
structure Status where
  id : List Nat
  status : StatusCode
  file_path : Option String
  created_at : Nat
  last_modified : Nat
  reward : Nat
  raw_status : Option RawStatus
deriving DecidableEq, Repr

/-- The variants of `error.rs`'s `ArweaveError` reached by the modelled
operations. -/
inductive ArweaveError where
  | MissingFilePath
  | SerdeJson
  | StatusNotFound
  | UnsignedTransaction
deriving DecidableEq, Repr

/-- The decoded contents of a log directory, keyed by file path (the
blake3-derived file name is a bijective renaming of the path). -/
def Store : Type := String → Option Status

/-! ## Status store operations (`lib.rs`) -/

/-- `write_status`: requires a `file_path` (else `MissingFilePath`), then a
non-empty `id` (else `UnsignedTransaction`), then writes the record at its
path's slot. -/
def write_status (status : Status) (store : Store) : Except ArweaveError Store :=
  match status.file_path with
  | some file_path =>
      if status.id = [] then Except.error ArweaveError.UnsignedTransaction
      else Except.ok (fun p => if p = file_path then some status else store p)
  | none => Except.error ArweaveError.MissingFilePath

/-- `read_status`: look the record up by path; `StatusNotFound` if absent. -/
def read_status (store : Store) (file_path : String) : Except ArweaveError Status :=
  match store file_path with
  | some status => Except.ok status
  | none => Except.error ArweaveError.StatusNotFound

/-- A raw-status gateway response: HTTP status code and body text. -/
structure RawResponse where
  code : Nat
  body : String

/-- Result of `update_status`: success carries the returned record and the
updated store; `crash` is the `unreachable!` panic. -/
inductive UpdateOutcome where
  | ok (status : Status) (store : Store)
  | err (e : ArweaveError)
  | crash

/-- Completion of `update_status`: write the mutated record back and return it. -/
def write_back (status : Status) (store : Store) : UpdateOutcome :=
  match write_status status store with
  | Except.error e => UpdateOutcome.err e
  | Except.ok store2 => UpdateOutcome.ok status store2

/-- `update_status`: read the local record, fetch the raw status (`resp`),
stamp `last_modified := now`, merge the response, write back. `parse` is
`serde_json::from_str` on the response body. The non-{200,404} branch is
the source's `unreachable!`. -/
def update_status (parse : String → Option RawStatus) (store : Store)
    (resp : RawResponse) (now : Nat) (file_path : String) : UpdateOutcome :=
  match read_status store file_path with
  | Except.error e => UpdateOutcome.err e
  | Except.ok status0 =>
    let status1 := { status0 with last_modified := now }
    if resp.code = 200 then
      if resp.body = "Pending" then
        write_back { status1 with status := StatusCode.Pending } store
      else
        match parse resp.body with
        | none => UpdateOutcome.err ArweaveError.SerdeJson
        | some raw =>
          write_back { status1 with raw_status := some raw, status := StatusCode.Confirmed } store
    else if resp.code = 404 then
      write_back { status1 with status := StatusCode.NotFound } store
    else UpdateOutcome.crash

/-- Projection of a successful update's record. -/
def UpdateOutcome.statusOf : UpdateOutcome → Option Status
  | UpdateOutcome.ok s _ => some s
  | _ => none

/-! ## Posting and signing (`lib.rs`, `crypto.rs`) -/

/-- A network call issued by an operation (for tracking that no I/O
happens on early-error paths). -/
inductive GatewayCall where
  | postTx (body : Transaction)
deriving DecidableEq, Repr

/-- Result of `post_transaction`; `crash` is the source's
`assert_eq!(resp.status(), 200)` failing. -/
inductive PostOutcome where
  | ok (status : Status)
  | err (e : ArweaveError)
  | crash
deriving DecidableEq, Repr

/-- `post_transaction`: reject an empty `id` before any network call;
otherwise POST the transaction, assert HTTP 200, and build a fresh
`Submitted` record (`..Default::default()` stamps both clock fields with
`now`). The second component lists the network calls issued. -/
def post_transaction (resp_code : Nat) (now : Nat) (signed_transaction : Transaction)
    (file_path : Option String) : PostOutcome × List GatewayCall :=
  if signed_transaction.id = [] then
    (PostOutcome.err ArweaveError.UnsignedTransaction, [])
  else
    let calls := [GatewayCall.postTx signed_transaction]
    if resp_code = 200 then
      (PostOutcome.ok
        { id := signed_transaction.id, status := StatusCode.Submitted,
          file_path := file_path, created_at := now, last_modified := now,
          reward := signed_transaction.reward, raw_status := none }, calls)
    else (PostOutcome.crash, calls)

/-- The crypto provider of `crypto.rs`: the hash primitives and the
in-place RSA-PSS signing primitive of the `ring` crate. `ringSignFill`
takes the preallocated output buffer and the message and returns the
filled buffer; `ring` writes through a `&mut [u8]`, which cannot change
the buffer's length — stated as a hypothesis where needed. -/
structure CryptoModel where
  sha256 : List Nat → List Nat
  sha384 : List Nat → List Nat
  modulus_len : Nat
  ringSignFill : List Nat → List Nat → List Nat

/-- `Provider::sign`: allocate a zeroed buffer of the modulus length and
let `ring` fill it. -/
def CryptoModel.sign (c : CryptoModel) (message : List Nat) : List Nat :=
  c.ringSignFill (List.replicate c.modulus_len 0) message

/-- `sign_transaction`: deep hash, sign, set `signature` and
`id := SHA-256(signature)`. -/
def sign_transaction (c : CryptoModel) (transaction : Transaction) : Transaction :=
  let dh := deep_hash c.sha384 transaction
  let signature := c.sign dh
  let id := c.sha256 signature
  { transaction with signature := signature, id := id }

/-! ## Transaction construction (`lib.rs`) -/

/-- `Tag::from_utf8_strs`: a tag whose name and value are the byte strings
of the given UTF-8 texts. -/
def fromUtf8Tag (name value : String) : Tag :=
  { name := ascii name, value := ascii value }

/-- `create_transaction_from_file_path`, with its external collaborators as
inputs: `data` is the file's bytes, `sniffed` the magic-byte MIME detection
(`infer::get`), `data_root` the Merkle root (from the `merkle` module),
`owner` the keypair modulus, and `last_tx` / `reward` the values after the
optional gateway fetches. The `Content-Type` tag always comes first,
followed by all caller-supplied tags; the unset fields keep the record's
defaults (`id`, `signature`, `target` empty, `quantity` zero). -/
def create_transaction_from_file_path (data : List Nat) (sniffed : Option String)
    (data_root : List Nat) (owner : List Nat) (other_tags : Option (List Tag))
    (last_tx : List Nat) (reward : Nat) : Transaction :=
  let content_type := match sniffed with
    | some mime => mime
    | none => "application/json"
  let tags := Tag.mk (ascii "Content-Type") (ascii content_type) :: other_tags.getD []
  { format := 2, id := [], last_tx := last_tx, owner := owner, tags := tags,
    target := [], quantity := 0, data := data, data_root := data_root,
    data_size := data.length, reward := reward, signature := [] }

/-- A tag named `Content-Type`. -/
def isContentTypeTag (t : Tag) : Bool :=
  decide (t.name = ascii "Content-Type")

/-! ## Batch drivers (`lib.rs`) -/

/-- `futures::future::try_join_all` over already-settled results: all `ok`
values in order, or an error if any element errored. -/
def try_join_all {ε α : Type} : List (Except ε α) → Except ε (List α)
  | [] => Except.ok []
  | x :: xs =>
    match x with
    | Except.error e => Except.error e
    | Except.ok a =>
      match try_join_all xs with
      | Except.error e => Except.error e
      | Except.ok rest => Except.ok (a :: rest)

/-- `read_statuses`: `try_join_all` of per-path reads. -/
def read_statuses (store : Store) (paths : List String) :
    Except ArweaveError (List Status) :=
  try_join_all (paths.map (read_status store))

/-- `update_statuses`, generic over the per-path refresh operation
(`update_status` with its network and clock inputs fixed). -/
def update_statuses (op : String → Except ArweaveError Status)
    (paths : List String) : Except ArweaveError (List Status) :=
  try_join_all (paths.map op)

/-- `upload_files_from_paths`, generic over the per-path upload operation
(`upload_file_from_path` with its network and clock inputs fixed); with a
tags iterator the paths are zipped against it, otherwise every path gets
`none`. -/
def upload_files_from_paths (op : String → Option (List Tag) → Except ArweaveError Status)
    (paths : List String) (tags_list : Option (List (Option (List Tag)))) :
    Except ArweaveError (List Status) :=
  match tags_list with
  | some ts => try_join_all ((paths.zip ts).map (fun pt => op pt.1 pt.2))
  | none => try_join_all (paths.map (fun p => op p none))

/-- `filter_statuses`: read all records, keep those matching the requested
status and, when `min_confirms` is given, having at least that many
confirmations (a missing `raw_status` counting as zero). -/
def filter_statuses (store : Store) (paths : List String) (status : StatusCode)
    (min_confirms : Option Nat) : Except ArweaveError (List Status) :=
  match read_statuses store paths with
  | Except.error e => Except.error e
  | Except.ok all_statuses =>
    Except.ok (all_statuses.filter (fun s =>
      match min_confirms with
      | some m =>
        let c := match s.raw_status with
          | some raw => raw.number_of_confirmations
          | none => 0
        decide (s.status = status) && decide (m ≤ c)
      | none => decide (s.status = status)))

/-- Written from the spec's words (§4.8 Filter): a record's confirmation
count, a missing `raw_status` counting as zero. -/
def spec_confirms (r : Status) : Nat :=
  match r.raw_status with
  | some raw => raw.number_of_confirmations
  | none => 0

/-- Written from the spec's words (§4.8 Filter): a record passes iff its
status equals the target and `min_confirms` is absent or the confirmation
count is at least `min_confirms`. -/
def spec_filter_pass (target : StatusCode) (min_confirms : Option Nat) (r : Status) : Bool :=
  decide (r.status = target) &&
    (match min_confirms with
     | none => true
     | some m => decide (m ≤ spec_confirms r))

/-! ## Concrete fixtures used by witnesses and counterexamples -/

/-- An unsigned transaction (empty `id` and `signature`). -/
def txEmptyId : Transaction :=
  { format := 2, id := [], last_tx := [], owner := [], tags := [], target := [],
    quantity := 0, data := [], data_root := [], data_size := 0, reward := 0,
    signature := [] }

/-- A toy crypto provider whose primitives are the identity. -/
def cryptoW : CryptoModel :=
  { sha256 := fun l => l, sha384 := fun l => l, modulus_len := 4,
    ringSignFill := fun buf _ => buf }

/-- A gateway raw status with three confirmations. -/
def rawFix : RawStatus :=
  { block_height := 10, block_indep_hash := [1, 2], number_of_confirmations := 3 }

/-- A stored record in the `Confirmed` state with a raw status attached. -/
def statusConfirmed : Status :=
  { id := [7], status := StatusCode.Confirmed, file_path := some "f.png",
    created_at := 5, last_modified := 6, reward := 9, raw_status := some rawFix }

/-- A store holding exactly the record for `f.png`. -/
def storeOne : Store := fun p => if p = "f.png" then some statusConfirmed else none

/-- A body parser that always fails (never consulted on the paths below). -/
def parseNone : String → Option RawStatus := fun _ => none

/-- `statusConfirmed` after a refresh that saw a pending response at time 7. -/
def stPend : Status :=
  { statusConfirmed with last_modified := 7, status := StatusCode.Pending }

/-- The empty store. -/
def storeEmpty : Store := fun _ => none

/-- An unsigned status record with no file path. -/
def statusNoPath : Status :=
  { id := [], status := StatusCode.Submitted, file_path := none, created_at := 0,
    last_modified := 0, reward := 0, raw_status := none }

/-- An unsigned status record that does carry a file path. -/
def statusEmptyIdPath : Status := { statusNoPath with file_path := some "a.png" }

/-- A per-path operation that fails on the path `bad` and succeeds elsewhere. -/
def opFail : String → Except ArweaveError Status :=
  fun p => if p = "bad" then Except.error ArweaveError.StatusNotFound
    else Except.ok statusNoPath

/-- The upload-shaped variant of `opFail`, ignoring its tags argument. -/
def uopFail : String → Option (List Tag) → Except ArweaveError Status :=
  fun p _ => opFail p

/-! ## Theorems -/

/-- The source's `hash_all_SHA384` on a two-element message list is the
hash of the two concatenated digests. -/
theorem hash_all_pair (sha : List Nat → List Nat) (x y : List Nat) :
    hash_all_SHA384 sha [x, y] = sha (sha x ++ sha y) := by
  simp [hash_all_SHA384]

/-- A per-tag slice folded by `deep_hash_list` equals the spec's two-element
sub-list hash for that tag. -/
theorem tag_slice_hash (sha : List Nat → List Nat) (t : Tag) :
    deep_hash_list sha 2 [t.name, t.value] none = refTagHash sha t := by
  simp [deep_hash_list, refTagHash, refListHash, refBlobHash, hash_all_pair]

/-- `deep_hash_tags` equals the spec's list hash over the per-tag hashes. -/
theorem deep_hash_tags_ref (sha : List Nat → List Nat) (tags : List Tag) :
    deep_hash_tags sha tags = refListHash sha (tags.map (refTagHash sha)) := by
  simp [deep_hash_tags, refListHash, to_slices, List.foldl_map, tag_slice_hash]

/-- Claim C1: for every transaction and every SHA-384 primitive, the staged
`deep_hash` of `crypto.rs` (first six fields, then the tags, then the final
two fields) equals the reference recursive structural hash of the
nine-element list `[format, owner, target, quantity, reward, last_tx,
tag_list, data_size, data_root]`, with blob and list nodes hashed exactly
as the spec prescribes. -/
theorem deep_hash_eq_ref (sha : List Nat → List Nat) (tx : Transaction) :
    deep_hash sha tx = refDeepHash sha tx := by
  simp [deep_hash, refDeepHash, deep_hash_list, refListHash, deep_hash_tags_ref,
    hash_all_pair, deep_hash_tags, to_slices, List.foldl_map, tag_slice_hash,
    refTagHash, refBlobHash]

/-- Claim C2: posting a transaction whose `id` is empty returns the
`UnsignedTransaction` error and issues no network call, whatever the
gateway would have answered. -/
theorem post_transaction_unsigned_no_network (resp_code now : Nat)
    (tx : Transaction) (fp : Option String) (h : tx.id = []) :
    post_transaction resp_code now tx fp =
      (PostOutcome.err ArweaveError.UnsignedTransaction, []) := by
  simp [post_transaction, h]

/-- Witness for C2 at a concrete unsigned transaction. -/
theorem post_transaction_unsigned_no_network_witness :
    post_transaction 200 7 txEmptyId none =
      (PostOutcome.err ArweaveError.UnsignedTransaction, []) :=
  post_transaction_unsigned_no_network 200 7 txEmptyId none rfl

/-- Claim C6: a signed transaction's `id` is the SHA-256 of its signature,
and the signature's length equals the RSA modulus length (the signature is
written into a buffer preallocated at the modulus length; `ring` writes
through a mutable slice, which cannot change the buffer's length). -/
theorem sign_transaction_id_and_sig_len (c : CryptoModel) (tx : Transaction)
    (hfill : ∀ buf message, (c.ringSignFill buf message).length = buf.length) :
    (sign_transaction c tx).id = c.sha256 ((sign_transaction c tx).signature) ∧
    (sign_transaction c tx).signature.length = c.modulus_len := by
  refine ⟨rfl, ?_⟩
  simp [sign_transaction, CryptoModel.sign, hfill]

/-- Witness for C6 at a concrete provider and transaction. -/
theorem sign_transaction_id_and_sig_len_witness :
    (sign_transaction cryptoW txEmptyId).id =
      cryptoW.sha256 ((sign_transaction cryptoW txEmptyId).signature) ∧
    (sign_transaction cryptoW txEmptyId).signature.length = cryptoW.modulus_len :=
  sign_transaction_id_and_sig_len cryptoW txEmptyId (fun _ _ => rfl)

/-- Claim C5: when all per-path reads succeed, `filter_statuses` returns
exactly the records passing the spec's predicate — status equal to the
target and, when `min_confirms` is given, at least that many confirmations,
a missing `raw_status` counting as zero. -/
theorem filter_statuses_spec (store : Store) (paths : List String)
    (target : StatusCode) (mc : Option Nat) (sts : List Status)
    (h : read_statuses store paths = Except.ok sts) :
    filter_statuses store paths target mc =
      Except.ok (sts.filter (spec_filter_pass target mc)) := by
  simp only [filter_statuses, h]
  congr 1
  apply List.filter_congr
  intro s _
  cases mc with
  | none => simp [spec_filter_pass]
  | some m => simp [spec_filter_pass, spec_confirms]

/-- Witness for C5 on a one-record store. -/
theorem filter_statuses_spec_witness :
    filter_statuses storeOne ["f.png"] StatusCode.Confirmed (some 2) =
      Except.ok ([statusConfirmed].filter
        (spec_filter_pass StatusCode.Confirmed (some 2))) :=
  filter_statuses_spec storeOne ["f.png"] StatusCode.Confirmed (some 2)
    [statusConfirmed] rfl

/-- Counterexample to C3 as stated: refreshing a stored `Confirmed` record
(whose `raw_status` is set) against a `200 "Pending"` response keeps the
old `raw_status` instead of clearing it — the Pending branch of
`update_status` never touches `raw_status`. -/
theorem update_status_pending_does_not_clear_raw :
    ¬ ((update_status parseNone storeOne { code := 200, body := "Pending" } 7
        "f.png").statusOf.map Status.raw_status = some none) := by
  decide

/-- Claim C3 (amended): a successful refresh maps the gateway response as
follows — HTTP 200 with body `"Pending"` sets the status to `Pending`
leaving `raw_status` unchanged; HTTP 200 with a JSON body sets the status
to `Confirmed` and `raw_status` from the body; HTTP 404 sets the status to
`NotFound` leaving `raw_status` unchanged; in each case `last_modified` is
stamped and the record is written back to the store under its file path. -/
theorem update_status_transitions
    (parse : String → Option RawStatus) (store : Store) (st : Status)
    (resp : RawResponse) (now : Nat) (path fp : String) (raw : RawStatus)
    (hread : store path = some st) (hfp : st.file_path = some fp)
    (hid : ¬ (st.id = [])) :
    (resp.code = 200 → resp.body = "Pending" →
      update_status parse store resp now path =
        UpdateOutcome.ok { st with last_modified := now, status := StatusCode.Pending }
          (fun p => if p = fp then
            some { st with last_modified := now, status := StatusCode.Pending }
            else store p)) ∧
    (resp.code = 200 → ¬ (resp.body = "Pending") → parse resp.body = some raw →
      update_status parse store resp now path =
        UpdateOutcome.ok
          { st with
            last_modified := now
            raw_status := some raw
            status := StatusCode.Confirmed }
          (fun p => if p = fp then
            some { st with
              last_modified := now
              raw_status := some raw
              status := StatusCode.Confirmed }
            else store p)) ∧
    (resp.code = 404 →
      update_status parse store resp now path =
        UpdateOutcome.ok { st with last_modified := now, status := StatusCode.NotFound }
          (fun p => if p = fp then
            some { st with last_modified := now, status := StatusCode.NotFound }
            else store p)) := by
  refine ⟨?_, ?_, ?_⟩
  · intro h200 hbody
    simp [update_status, read_status, hread, h200, hbody, write_back, write_status,
      hfp, hid]
  · intro h200 hbody hparse
    simp [update_status, read_status, hread, h200, hbody, hparse, write_back,
      write_status, hfp, hid]
  · intro h404
    simp [update_status, read_status, hread, h404, write_back, write_status,
      hfp, hid]

/-- Witness for the amended C3 on the one-record store and a pending
response. -/
theorem update_status_transitions_witness :
    (200 = 200 → "Pending" = "Pending" →
      update_status parseNone storeOne { code := 200, body := "Pending" } 7 "f.png" =
        UpdateOutcome.ok
          { statusConfirmed with last_modified := 7, status := StatusCode.Pending }
          (fun p => if p = "f.png" then
            some { statusConfirmed with last_modified := 7, status := StatusCode.Pending }
            else storeOne p)) ∧
    (200 = 200 → ¬ ("Pending" = "Pending") → parseNone "Pending" = some rawFix →
      update_status parseNone storeOne { code := 200, body := "Pending" } 7 "f.png" =
        UpdateOutcome.ok
          { statusConfirmed with
            last_modified := 7
            raw_status := some rawFix
            status := StatusCode.Confirmed }
          (fun p => if p = "f.png" then
            some { statusConfirmed with
              last_modified := 7
              raw_status := some rawFix
              status := StatusCode.Confirmed }
            else storeOne p)) ∧
    ((200 : Nat) = 404 →
      update_status parseNone storeOne { code := 200, body := "Pending" } 7 "f.png" =
        UpdateOutcome.ok
          { statusConfirmed with last_modified := 7, status := StatusCode.NotFound }
          (fun p => if p = "f.png" then
            some { statusConfirmed with last_modified := 7, status := StatusCode.NotFound }
            else storeOne p)) :=
  update_status_transitions parseNone storeOne statusConfirmed
    { code := 200, body := "Pending" } 7 "f.png" "f.png" rawFix rfl rfl (by decide)

/-- Claim C4: on a gateway response whose HTTP status is neither 200 nor
404, the source's `update_status` hits its `unreachable!` branch and
crashes instead of returning a `Gateway` error (`error.rs` has no such
variant) — the spec's §9 lists this as a known defect of the source. -/
theorem update_status_non_200_404_crashes (parse : String → Option RawStatus)
    (store : Store) (st : Status) (resp : RawResponse) (now : Nat) (path : String)
    (hread : store path = some st) (h200 : ¬ (resp.code = 200))
    (h404 : ¬ (resp.code = 404)) :
    update_status parse store resp now path = UpdateOutcome.crash := by
  simp [update_status, read_status, hread, h200, h404]

/-- Witness for C4 at a concrete HTTP 500 response. -/
theorem update_status_non_200_404_crashes_witness :
    update_status parseNone storeOne { code := 500, body := "oops" } 7 "f.png" =
      UpdateOutcome.crash :=
  update_status_non_200_404_crashes parseNone storeOne statusConfirmed
    { code := 500, body := "oops" } 7 "f.png" rfl (by decide) (by decide)

/-- Claim C7: a successful refresh preserves `created_at`, `id`,
`file_path` and `reward`, and sets `last_modified` to the current clock
reading — strictly later than the stored `last_modified` whenever the
clock has advanced past it. -/
theorem update_status_frame (parse : String → Option RawStatus) (store : Store)
    (st : Status) (resp : RawResponse) (now : Nat) (path : String)
    (st2 : Status) (store2 : Store)
    (hread : store path = some st)
    (hok : update_status parse store resp now path = UpdateOutcome.ok st2 store2)
    (hnow : st.last_modified < now) :
    st2.created_at = st.created_at ∧ st2.last_modified = now ∧
    st.last_modified < st2.last_modified ∧ st2.id = st.id ∧
    st2.file_path = st.file_path ∧ st2.reward = st.reward := by
  simp only [update_status, read_status, hread, write_back, write_status] at hok
  repeat' split at hok
  all_goals cases hok
  all_goals exact ⟨rfl, rfl, hnow, rfl, rfl, rfl⟩

/-- Witness for C7 on the one-record store and a pending response. -/
theorem update_status_frame_witness :
    stPend.created_at = statusConfirmed.created_at ∧ stPend.last_modified = 7 ∧
    statusConfirmed.last_modified < stPend.last_modified ∧
    stPend.id = statusConfirmed.id ∧
    stPend.file_path = statusConfirmed.file_path ∧
    stPend.reward = statusConfirmed.reward :=
  update_status_frame parseNone storeOne statusConfirmed
    { code := 200, body := "Pending" } 7 "f.png" stPend
    (fun p => if p = "f.png" then some stPend else storeOne p) rfl rfl (by decide)

/-- Counterexample to C8 as stated: a status with empty `id` but no
`file_path` fails with `MissingFilePath`, not `UnsignedTransaction` — the
source checks `file_path` before the empty-`id` check. -/
theorem write_status_no_file_path_not_unsigned :
    write_status statusNoPath storeEmpty = Except.error ArweaveError.MissingFilePath ∧
    ¬ (write_status statusNoPath storeEmpty =
        Except.error ArweaveError.UnsignedTransaction) :=
  ⟨rfl, fun h => by simp [write_status, statusNoPath] at h⟩

/-- Claim C8 (amended): for a status record that carries a `file_path`,
an empty `id` makes `write_status` fail with `UnsignedTransaction` (no
store is produced, so nothing is written). -/
theorem write_status_empty_id_with_path_unsigned (st : Status) (store : Store)
    (fp : String) (hfp : st.file_path = some fp) (hid : st.id = []) :
    write_status st store = Except.error ArweaveError.UnsignedTransaction := by
  simp [write_status, hfp, hid]

/-- Witness for the amended C8 at a concrete record. -/
theorem write_status_empty_id_with_path_unsigned_witness :
    write_status statusEmptyIdPath storeEmpty =
      Except.error ArweaveError.UnsignedTransaction :=
  write_status_empty_id_with_path_unsigned statusEmptyIdPath storeEmpty "a.png" rfl rfl

/-- Counterexample to C9 as stated: when the caller-supplied extra tags
already contain a tag named `Content-Type`, the produced transaction holds
two such tags — the source prepends its own unconditionally. -/
theorem create_tx_duplicate_content_type :
    ¬ (((create_transaction_from_file_path [] none [] []
        (some [fromUtf8Tag "Content-Type" "text/html"]) [] 0).tags.countP
          isContentTypeTag) = 1) := by
  decide

/-- Claim C9 (amended): the produced transaction's first tag is the
`Content-Type` tag carrying the sniffed MIME type (default
`application/json`), and when the extra tags contain no tag named
`Content-Type` it is the only such tag. -/
theorem create_tx_content_type_first_and_unique (data : List Nat)
    (sniffed : Option String) (data_root owner : List Nat)
    (other_tags : Option (List Tag)) (last_tx : List Nat) (reward : Nat)
    (hclean : (other_tags.getD []).countP isContentTypeTag = 0) :
    (create_transaction_from_file_path data sniffed data_root owner other_tags
      last_tx reward).tags.head? =
      some (Tag.mk (ascii "Content-Type") (ascii (sniffed.getD "application/json"))) ∧
    (create_transaction_from_file_path data sniffed data_root owner other_tags
      last_tx reward).tags.countP isContentTypeTag = 1 := by
  constructor
  · cases sniffed <;> rfl
  · simp [create_transaction_from_file_path, List.countP_cons, hclean, isContentTypeTag]

/-- Witness for the amended C9 with no extra tags. -/
theorem create_tx_content_type_first_and_unique_witness :
    (create_transaction_from_file_path [] none [] [] none [] 0).tags.head? =
      some (Tag.mk (ascii "Content-Type") (ascii ((none : Option String).getD "application/json"))) ∧
    (create_transaction_from_file_path [] none [] [] none [] 0).tags.countP
      isContentTypeTag = 1 :=
  create_tx_content_type_first_and_unique [] none [] [] none [] 0 rfl

/-- `try_join_all` over a mapped list errors (with one of the operations'
errors) whenever the operation fails on some member. -/
theorem try_join_all_error_of_mem {ε α β : Type} (f : β → Except ε α) (l : List β)
    (b : β) (hb : b ∈ l) (e : ε) (he : f b = Except.error e) :
    ∃ c e2, c ∈ l ∧ f c = Except.error e2 ∧
      try_join_all (l.map f) = Except.error e2 := by
  induction l with
  | nil => cases hb
  | cons x xs ih =>
    cases hx : f x with
    | error e0 =>
      exact ⟨x, e0, List.mem_cons_self x xs, hx, by simp [try_join_all, hx]⟩
    | ok a =>
      rcases List.mem_cons.mp hb with rfl | hb2
      · simp [hx] at he
      · obtain ⟨c, e2, hc, hfc, hjoin⟩ := ih hb2
        exact ⟨c, e2, List.mem_cons_of_mem _ hc, hfc,
          by simp [try_join_all, hx, hjoin]⟩

/-- Claim C10: the batch drivers `update_statuses` and
`upload_files_from_paths` are all-or-nothing — if the per-path operation
fails for any path in the iterator, the whole call returns one of the
failing operations' errors and no vector of statuses, even when other
paths succeeded. -/
theorem batch_all_or_nothing
    (uop : String → Option (List Tag) → Except ArweaveError Status)
    (op : String → Except ArweaveError Status)
    (paths : List String) (p : String) (e e2 : ArweaveError)
    (hp : p ∈ paths) :
    (op p = Except.error e →
      ∃ q e3, q ∈ paths ∧ op q = Except.error e3 ∧
        update_statuses op paths = Except.error e3) ∧
    (uop p none = Except.error e2 →
      ∃ q e3, q ∈ paths ∧ uop q none = Except.error e3 ∧
        upload_files_from_paths uop paths none = Except.error e3) := by
  constructor
  · intro he
    exact try_join_all_error_of_mem op paths p hp e he
  · intro he
    obtain ⟨q, e3, hq, hfq, hjoin⟩ :=
      try_join_all_error_of_mem (fun q => uop q none) paths p hp e2 he
    exact ⟨q, e3, hq, hfq, by simpa [upload_files_from_paths] using hjoin⟩

/-- Witness for C10 on a two-path batch whose second path fails. -/
theorem batch_all_or_nothing_witness :
    (opFail "bad" = Except.error ArweaveError.StatusNotFound →
      ∃ q e3, q ∈ ["good", "bad"] ∧ opFail q = Except.error e3 ∧
        update_statuses opFail ["good", "bad"] = Except.error e3) ∧
    (uopFail "bad" none = Except.error ArweaveError.StatusNotFound →
      ∃ q e3, q ∈ ["good", "bad"] ∧ uopFail q none = Except.error e3 ∧
        upload_files_from_paths uopFail ["good", "bad"] none = Except.error e3) :=
  batch_all_or_nothing uopFail opFail ["good", "bad"] "bad"
    ArweaveError.StatusNotFound ArweaveError.StatusNotFound (by simp)

end Arloader
